import Mathlib

/-!
Shallow embedding of the da-cloud-cf-gateway Cloudflare worker
(src/index.js and src/router.template.js) and proofs about its routing,
validation and dispatch behaviour.

JavaScript values that can appear in a parsed JSON document are modelled by
the inductive type `JVal`; JS objects become association lists of fields.
The ambient worker state (the env secret map, the static route map, the D1
database handle and the platform JSON parser) are passed as explicit
parameters to the translated functions.
-/

set_option maxHeartbeats 1000000

namespace DaGateway

/-- A JSON value, modelling the JavaScript values produced by JSON.parse.
Numbers are modelled as integers (all numbers appearing in the claims are
integral). Objects are association lists of key/value pairs; JSON.parse
produces objects with pairwise distinct keys. -/
inductive JVal where
  | jnull : JVal
  | jbool (b : Bool) : JVal
  | jnum (n : Int) : JVal
  | jstr (s : String) : JVal
  | jarr (xs : List JVal) : JVal
  | jobj (fields : List (String × JVal)) : JVal
deriving Repr

mutual
/-- Decidable equality of JSON values (written out by hand: the automatic
derivation does not handle the nested lists). -/
def JVal.decEq : (a b : JVal) → Decidable (a = b)
  | JVal.jnull, JVal.jnull => isTrue rfl
  | JVal.jnull, JVal.jbool _ => isFalse nofun
  | JVal.jnull, JVal.jnum _ => isFalse nofun
  | JVal.jnull, JVal.jstr _ => isFalse nofun
  | JVal.jnull, JVal.jarr _ => isFalse nofun
  | JVal.jnull, JVal.jobj _ => isFalse nofun
  | JVal.jbool _, JVal.jnull => isFalse nofun
  | JVal.jbool a, JVal.jbool b =>
      if h : a = b then isTrue (by rw [h]) else isFalse (fun hh => h (JVal.jbool.inj hh))
  | JVal.jbool _, JVal.jnum _ => isFalse nofun
  | JVal.jbool _, JVal.jstr _ => isFalse nofun
  | JVal.jbool _, JVal.jarr _ => isFalse nofun
  | JVal.jbool _, JVal.jobj _ => isFalse nofun
  | JVal.jnum _, JVal.jnull => isFalse nofun
  | JVal.jnum _, JVal.jbool _ => isFalse nofun
  | JVal.jnum a, JVal.jnum b =>
      if h : a = b then isTrue (by rw [h]) else isFalse (fun hh => h (JVal.jnum.inj hh))
  | JVal.jnum _, JVal.jstr _ => isFalse nofun
  | JVal.jnum _, JVal.jarr _ => isFalse nofun
  | JVal.jnum _, JVal.jobj _ => isFalse nofun
  | JVal.jstr _, JVal.jnull => isFalse nofun
  | JVal.jstr _, JVal.jbool _ => isFalse nofun
  | JVal.jstr _, JVal.jnum _ => isFalse nofun
  | JVal.jstr a, JVal.jstr b =>
      if h : a = b then isTrue (by rw [h]) else isFalse (fun hh => h (JVal.jstr.inj hh))
  | JVal.jstr _, JVal.jarr _ => isFalse nofun
  | JVal.jstr _, JVal.jobj _ => isFalse nofun
  | JVal.jarr _, JVal.jnull => isFalse nofun
  | JVal.jarr _, JVal.jbool _ => isFalse nofun
  | JVal.jarr _, JVal.jnum _ => isFalse nofun
  | JVal.jarr _, JVal.jstr _ => isFalse nofun
  | JVal.jarr xs, JVal.jarr ys =>
      match decEqJList xs ys with
      | isTrue h => isTrue (by rw [h])
      | isFalse h => isFalse (fun hh => h (JVal.jarr.inj hh))
  | JVal.jarr _, JVal.jobj _ => isFalse nofun
  | JVal.jobj _, JVal.jnull => isFalse nofun
  | JVal.jobj _, JVal.jbool _ => isFalse nofun
  | JVal.jobj _, JVal.jnum _ => isFalse nofun
  | JVal.jobj _, JVal.jstr _ => isFalse nofun
  | JVal.jobj _, JVal.jarr _ => isFalse nofun
  | JVal.jobj fs, JVal.jobj gs =>
      match decEqJFields fs gs with
      | isTrue h => isTrue (by rw [h])
      | isFalse h => isFalse (fun hh => h (JVal.jobj.inj hh))

/-- Decidable equality of JSON value lists. -/
def decEqJList : (xs ys : List JVal) → Decidable (xs = ys)
  | [], [] => isTrue rfl
  | [], _ :: _ => isFalse nofun
  | _ :: _, [] => isFalse nofun
  | x :: xs, y :: ys =>
      match JVal.decEq x y with
      | isFalse h => isFalse (fun hh => h (List.cons.inj hh).1)
      | isTrue h1 =>
        match decEqJList xs ys with
        | isTrue h2 => isTrue (by rw [h1, h2])
        | isFalse h2 => isFalse (fun hh => h2 (List.cons.inj hh).2)

/-- Decidable equality of object field lists. -/
def decEqJFields : (fs gs : List (String × JVal)) → Decidable (fs = gs)
  | [], [] => isTrue rfl
  | [], _ :: _ => isFalse nofun
  | _ :: _, [] => isFalse nofun
  | (k, v) :: fs, (l, w) :: gs =>
      if hk : k = l then
        match JVal.decEq v w with
        | isFalse h => isFalse (fun hh => h (congrArg Prod.snd (List.cons.inj hh).1))
        | isTrue h1 =>
          match decEqJFields fs gs with
          | isTrue h2 => isTrue (by rw [hk, h1, h2])
          | isFalse h2 => isFalse (fun hh => h2 (List.cons.inj hh).2)
      else isFalse (fun hh => hk (congrArg Prod.fst (List.cons.inj hh).1))
end

instance : DecidableEq JVal := JVal.decEq

/-- JavaScript truthiness of a JSON value: null, false, 0 and the empty
string are falsy; every array and object is truthy. -/
def JVal.truthy : JVal → Bool
  | JVal.jnull => false
  | JVal.jbool b => b
  | JVal.jnum n => n != 0
  | JVal.jstr s => s != ""
  | JVal.jarr _ => true
  | JVal.jobj _ => true

/-- Truthiness of an optional JS value; `none` models `undefined`. -/
def optTruthy : Option JVal → Bool
  | none => false
  | some v => v.truthy

/-- First value bound to a key in an object field list (JS property read). -/
def lookupField : List (String × JVal) → String → Option JVal
  | [], _ => none
  | (k, v) :: rest, key => if k = key then some v else lookupField rest key

/-- JS property assignment on an object field list: replaces the binding in
place when the key exists, appends it otherwise. -/
def setField : List (String × JVal) → String → JVal → List (String × JVal)
  | [], key, v => [(key, v)]
  | (k, w) :: rest, key, v =>
      if k = key then (key, v) :: rest else (k, w) :: setField rest key v

/-- JS `delete` on an object field list: removes every binding of the key. -/
def eraseField : List (String × JVal) → String → List (String × JVal)
  | [], _ => []
  | (k, w) :: rest, key =>
      if k = key then eraseField rest key else (k, w) :: eraseField rest key

/-- JS property read `v.k`. Reading a property of a primitive yields
`undefined` (`none`); `v` is never null or undefined at the call sites that
use this (their JS originals would throw there). -/
def JVal.getF : JVal → String → Option JVal
  | JVal.jobj fs, k => lookupField fs k
  | _, _ => none

/-- Whether the JSON value is an object that binds the key. -/
def JVal.hasKey (v : JVal) (k : String) : Bool := (v.getF k).isSome

/-- JS `a || d` for an optional JS value `a` (undefined when `none`). -/
def jsOr (a : Option JVal) (d : JVal) : JVal :=
  match a with
  | some v => if v.truthy then v else d
  | none => d

mutual
/-- JS ToString coercion of a JSON value, as used by template literals. -/
def jsToString : JVal → String
  | JVal.jnull => "null"
  | JVal.jbool b => if b then "true" else "false"
  | JVal.jnum n => toString n
  | JVal.jstr s => s
  | JVal.jarr xs => jsArrToString xs
  | JVal.jobj _ => "[object Object]"

/-- JS Array.prototype.toString: elements joined by commas, null elements
rendered as the empty string. -/
def jsArrToString : List JVal → String
  | [] => ""
  | [JVal.jnull] => ""
  | [x] => jsToString x
  | JVal.jnull :: rest => "," ++ jsArrToString rest
  | x :: rest => jsToString x ++ "," ++ jsArrToString rest
end

/-- JS ToString coercion of a possibly-undefined value: `undefined` coerces
to the string "undefined". -/
def jsToStringU : Option JVal → String
  | none => "undefined"
  | some v => jsToString v

/-- Character of the standard base64 alphabet at an index below 64. -/
def b64Char (n : Nat) : Char :=
  "ABCDEFGHIJKLMNOPQRSTUVWXYZabcdefghijklmnopqrstuvwxyz0123456789+/".toList.getD n 'A'

/-- Standard base64 encoding of a byte list, with `=` padding. -/
def b64Encode : List Nat → List Char
  | [] => []
  | [a] => [b64Char (a / 4), b64Char (a % 4 * 16), '=', '=']
  | [a, b] => [b64Char (a / 4), b64Char (a % 4 * 16 + b / 16), b64Char (b % 16 * 4), '=']
  | a :: b :: c :: rest =>
      b64Char (a / 4) :: b64Char (a % 4 * 16 + b / 16) ::
      b64Char (b % 16 * 4 + c / 64) :: b64Char (c % 64) :: b64Encode rest

/-- The platform function btoa: base64 of the code units of the string.
This models btoa on strings of characters below U+0100 (btoa throws beyond
that range; every credential handled by the gateway is such a string). -/
def btoa (s : String) : String := String.mk (b64Encode (s.toList.map Char.toNat))

/-- Splitting a character list at every single space character, keeping
empty segments, exactly as JS String.prototype.split with separator " ".
The accumulator holds the characters of the current segment, reversed. -/
def splitAux : List Char → List Char → List String
  | [], acc => [String.mk acc.reverse]
  | c :: rest, acc =>
      if c = ' ' then String.mk acc.reverse :: splitAux rest []
      else splitAux rest (c :: acc)

/-- JS `s.split(" ")`. -/
def jsSplitSpace (s : String) : List String := splitAux s.toList []

/-- Whether the first list is an initial segment of the second. -/
def beginsWith : List Char → List Char → Bool
  | [], _ => true
  | _ :: _, [] => false
  | a :: ps, b :: ss => a = b && beginsWith ps ss

/-- JS `s.startsWith(p)`, on code units. -/
def jsStartsWith (s p : String) : Bool := beginsWith p.toList s.toList

/-! ## The D1 route store (src/index.js, findRouteFromDB) -/

/-- One result row of the route query; `t1` is the route-config column,
`none` modelling a null or missing column value. -/
structure Row where
  t1 : Option String
deriving DecidableEq, Repr

/-- Outcome of running the prepared statement for a key: either the storage
layer throws, or it yields a list of result rows. -/
inductive QueryResult where
  | qerror : QueryResult
  | rows (rs : List Row) : QueryResult

/-- The worker global G_DB: `available` is the truthiness of the handle
(false models an unconfigured binding), `query` gives the outcome of the
`SELECT t1 FROM darouter WHERE c1 = ? LIMIT 1` statement for each bound key. -/
structure DBState where
  available : Bool
  query : String → QueryResult

/-- Translation of findRouteFromDB (src/index.js lines 194-220). `parse` is
the platform JSON.parse, passed explicitly and returning `none` on a parse
error; the JS null results of every failure branch and of a stored "null"
are the same JS value, modelled by `JVal.jnull`. -/
def findRouteFromDB (parse : String → Option JVal) (db : DBState) (key : String) : JVal :=
  if db.available = false then JVal.jnull
  else
    match db.query key with
    | QueryResult.qerror => JVal.jnull
    | QueryResult.rows [] => JVal.jnull
    | QueryResult.rows (row :: _) =>
      match row.t1 with
      | none => JVal.jnull
      | some s => if s = "" then JVal.jnull else (parse s).getD JVal.jnull

/-! ## The static route table (src/router.template.js) -/

/-- Translation of the DA_SERVICE_MAP of router.template.js: an exact
string-match lookup from "version/service" keys to route objects. -/
def DA_SERVICE_MAP : String → Option JVal := fun k =>
  if k = "v99/demorest" then
    some (JVal.jobj
      [("type", JVal.jstr "REST"),
       ("targetUrl", JVal.jstr "https://v1-users-api.example.com"),
       ("authKeyEnvName", JVal.jstr "REST_API_BEARER_TOKEN")])
  else if k = "v88/demoably" then
    some (JVal.jobj
      [("type", JVal.jstr "ABLY"),
       ("authKeyEnvName", JVal.jstr "ABLY_API_KEY"),
       ("channelName", JVal.jstr "system_bus_v1")])
  else none

/-- Route resolution as performed inline by handleApi (lines 101-108): the
static map value when it is truthy, otherwise the database lookup result
(which is the JS value null for every store failure). -/
def resolveRoute (static : String → Option JVal) (parse : String → Option JVal)
    (db : DBState) (key : String) : Option JVal :=
  let r := static key
  if optTruthy r then r else some (findRouteFromDB parse db key)

/-! ## Protocol handlers (src/index.js, handleRest and handleAbly) -/

/-- Outbound credential resolution, the block duplicated verbatim at the
top of handleRest (lines 14-19) and handleAbly (lines 35-40):
`route.token` when truthy, else the env secret named by
`route.authKeyEnvName` when that name is truthy, else the original
`route.token` value (possibly undefined). `none` models JS undefined. -/
def resolveCredential (route : JVal) (env : String → Option String) : Option JVal :=
  let t := route.getF "token"
  if optTruthy t then t
  else
    let envName := route.getF "authKeyEnvName"
    if optTruthy envName then (env (jsToStringU envName)).map JVal.jstr
    else t

/-- The outbound POST built by handleRest: target URL, headers, and the
JSON body (the serialized JS value is modelled by the value itself). -/
structure RestCall where
  url : Option JVal
  headers : List (String × String)
  body : JVal
deriving DecidableEq, Repr

/-- Translation of handleRest (lines 13-29). The function returns the
backend response verbatim; the observable modelled here is the outbound
fetch it performs. -/
def handleRest (route bodyJson : JVal) (env : String → Option String) : RestCall :=
  let routeToken := resolveCredential route env
  let headers := [("Content-Type", "application/json")]
  let headers :=
    if optTruthy routeToken then
      headers ++ [("Authorization", "Bearer " ++ jsToStringU routeToken)]
    else headers
  ⟨route.getF "targetUrl", headers, bodyJson⟩

/-- The publish request built by handleAbly: the channel value interpolated
into the publish endpoint, the headers, and the JSON body (as a JS value). -/
structure AblyCall where
  channel : Option JVal
  headers : List (String × String)
  body : JVal
deriving DecidableEq, Repr

/-- Translation of handleAbly (lines 34-57), up to the outbound publish
request; the Authorization header is set unconditionally, with btoa
coercing its argument to a string (undefined coerces to "undefined"). -/
def handleAbly (route bodyJson : JVal) (env : String → Option String) : AblyCall :=
  let routeToken := resolveCredential route env
  let channel := route.getF "channelName"
  let ablyName := jsOr (bodyJson.getF "action") (JVal.jstr "gateway-event")
  let messageBusPayload := JVal.jarr [JVal.jobj [("name", ablyName), ("data", bodyJson)]]
  ⟨channel,
   [("Authorization", "Basic " ++ btoa (jsToStringU routeToken)),
    ("Content-Type", "application/json")],
   messageBusPayload⟩

/-! ## Dispatcher (src/index.js, handleApi lines 111-136) -/

/-- The table_name injection/strip step (lines 111-122), expressed on the
forwarded JSON. The two non-object payload shapes both leave the forwarded
body unchanged: a primitive payload makes the property write or the `in`
test throw (strict mode), which the catch swallows; an array payload
accepts the property write in memory, but JSON serialization of an array
drops non-index properties, so the forwarded JSON is again unchanged. -/
def injectTableName (route body : JVal) : JVal :=
  match body with
  | JVal.jobj fs =>
    match lookupField fs "payload" with
    | some (JVal.jobj pfs) =>
      if optTruthy (route.getF "table_name") then
        JVal.jobj (setField fs "payload"
          (JVal.jobj (setField pfs "table_name" ((route.getF "table_name").getD JVal.jnull))))
      else
        JVal.jobj (setField fs "payload" (JVal.jobj (eraseField pfs "table_name")))
    | _ => body
  | _ => body

/-- Observable outcome of one gateway request: a nack envelope (HTTP 400),
an outbound REST forward, an outbound bus publish, a jsonError response
with the given status, or an uncaught exception. -/
inductive GatewayResult where
  | nackR (requestId : JVal) (code : String) (message : String) : GatewayResult
  | restDispatch (call : RestCall) : GatewayResult
  | ablyDispatch (call : AblyCall) : GatewayResult
  | errorR (message : String) (status : Nat) : GatewayResult
  | thrown : GatewayResult
deriving DecidableEq, Repr

/-- The per-route-type dispatch step (lines 111-132): table_name
injection, then the switch on route.type; the default branch reports the
request body type field, not the route one. -/
def dispatch (env : String → Option String) (route body : JVal) : GatewayResult :=
  let body2 := injectTableName route body
  match route.getF "type" with
  | some (JVal.jstr "REST") => GatewayResult.restDispatch (handleRest route body2 env)
  | some (JVal.jstr "ABLY") => GatewayResult.ablyDispatch (handleAbly route body2 env)
  | _ => GatewayResult.errorR ("Unsupported service type: " ++ jsToStringU (body2.getF "type")) 501

/-! ## Request validation and the full /api handler (src/index.js, handleApi) -/

/-- The defaulted request id of line 89: `body.request_id || "unknown"`. -/
def jsRequestId (body : JVal) : JVal := jsOr (body.getF "request_id") (JVal.jstr "unknown")

/-- The lookup key of line 101, the template literal
interpolating `body.version || "v1"` and `body.service`. -/
def jsKey (body : JVal) : String :=
  jsToString (jsOr (body.getF "version") (JVal.jstr "v1")) ++ "/" ++
    jsToString ((body.getF "service").getD JVal.jnull)

/-- Lines 89-136 of handleApi: everything after a successful token check
and JSON parse. A null body throws on the first property read (strict
mode), uncaught. -/
def handleApiBody (env : String → Option String) (static : String → Option JVal)
    (db : DBState) (parse : String → Option JVal) (body : JVal) : GatewayResult :=
  if body = JVal.jnull then GatewayResult.thrown
  else
    if optTruthy (body.getF "service") = false then
      GatewayResult.nackR (jsRequestId body) "INVALID_FIELD" "Missing field: service"
    else if optTruthy (body.getF "payload") = false then
      GatewayResult.nackR (jsRequestId body) "INVALID_FIELD" "Missing required field: payload"
    else
      let key := jsKey body
      let route := resolveRoute static parse db key
      if optTruthy route = false then
        GatewayResult.nackR (jsRequestId body) "NO_ROUTE" ("No route found for " ++ key)
      else
        dispatch env (route.getD JVal.jnull) body

/-- The fixed env name of the inbound gateway secret (line 229). -/
def C_GATEWAY_TOKEN_NAME : String := "DA_GATEWAY_TOKEN"

/-- Translation of handleApi (lines 71-138). `authHeader` is the
Authorization header (`none` when absent), `reqBody` the parsed JSON body
(`none` when parsing threw). The token comparison is JS strict equality
between `auth.split(" ")[1]` and the env value, either of which may be
undefined; `Option String` equality models exactly that. -/
def handleApi (env : String → Option String) (static : String → Option JVal)
    (db : DBState) (parse : String → Option JVal)
    (authHeader : Option String) (reqBody : Option JVal) : GatewayResult :=
  match authHeader with
  | none => GatewayResult.nackR (JVal.jstr "unknown") "UNAUTHORIZED" "Missing or invalid Authorization header"
  | some auth =>
    if auth = "" ∨ jsStartsWith auth "Bearer " = false then
      GatewayResult.nackR (JVal.jstr "unknown") "UNAUTHORIZED" "Missing or invalid Authorization header"
    else if (jsSplitSpace auth).get? 1 ≠ env C_GATEWAY_TOKEN_NAME then
      GatewayResult.nackR (JVal.jstr "unknown") "INVALID_TOKEN" "Token authentication failed"
    else
      match reqBody with
      | none => GatewayResult.nackR (JVal.jstr "unknown") "INVALID_JSON" "Malformed JSON body"
      | some body => handleApiBody env static db parse body

/-- Resolving the same key twice against the same static table, store state
and parser, as one sequential pair of lookups. -/
def resolveTwice (static : String → Option JVal) (parse : String → Option JVal)
    (db : DBState) (key : String) : Option JVal × Option JVal :=
  let first := resolveRoute static parse db key
  let second := resolveRoute static parse db key
  (first, second)

/-! ## Concrete fixtures used to instantiate the theorems -/

/-- An env defining only the inbound gateway secret. -/
def envFix : String → Option String := fun n =>
  if n = "DA_GATEWAY_TOKEN" then some "s3cret" else none

/-- An env defining no secret at all. -/
def envNone : String → Option String := fun _ => none

/-- A JSON parser double that fails on every input. -/
def parseNone : String → Option JVal := fun _ => none

/-- An unavailable store handle (unconfigured D1 binding). -/
def dbOff : DBState := ⟨false, fun _ => QueryResult.rows []⟩

/-- An available store whose every query returns no rows. -/
def dbEmpty : DBState := ⟨true, fun _ => QueryResult.rows []⟩

/-- An ABLY route carrying no credential at all. -/
def routeAblyFix : JVal :=
  JVal.jobj [("type", JVal.jstr "ABLY"), ("channelName", JVal.jstr "ch")]

/-- A REST route with a table_name and no credential. -/
def routeRestTN : JVal :=
  JVal.jobj [("type", JVal.jstr "REST"),
             ("targetUrl", JVal.jstr "https://backend.example"),
             ("table_name", JVal.jstr "orders")]

/-- A REST route with both a literal token and an env secret name. -/
def routeRestBoth : JVal :=
  JVal.jobj [("type", JVal.jstr "REST"),
             ("targetUrl", JVal.jstr "https://backend.example"),
             ("token", JVal.jstr "T1"),
             ("authKeyEnvName", JVal.jstr "DA_GATEWAY_TOKEN")]

/-- A static table exposing the fixture routes. -/
def staticFix : String → Option JVal := fun k =>
  if k = "v1/bus" then some routeAblyFix
  else if k = "v1/tn" then some routeRestTN
  else none

/-- An env defining only the REST backend secret of the template route. -/
def envRest : String → Option String := fun n =>
  if n = "REST_API_BEARER_TOKEN" then some "envtok" else none

/-- An available store whose every query returns one malformed row. -/
def dbMal : DBState := ⟨true, fun _ => QueryResult.rows [⟨some "garbage"⟩]⟩

/-- A valid body whose key is mapped neither statically nor in the store. -/
def noRouteBody : JVal :=
  JVal.jobj [("service", JVal.jstr "nothere"), ("payload", JVal.jobj [])]

/-- A body whose payload carries an action field but whose envelope has no
top-level action field; its key v1/bus maps to the fixture ABLY route. -/
def c1body : JVal :=
  JVal.jobj [("service", JVal.jstr "bus"),
             ("payload", JVal.jobj [("action", JVal.jstr "ping")])]

/-- A body with a present but falsy payload: the JSON number 0. -/
def c2body : JVal :=
  JVal.jobj [("service", JVal.jstr "demorest"), ("payload", JVal.jnum 0)]

/-- A body whose payload is a (truthy) empty JSON array. -/
def c6body : JVal :=
  JVal.jobj [("service", JVal.jstr "arr"), ("payload", JVal.jarr [])]

/-- A body whose object payload spoofs a client-supplied table_name. -/
def c6obj : JVal :=
  JVal.jobj [("service", JVal.jstr "x"),
             ("payload", JVal.jobj [("table_name", JVal.jstr "spoof"), ("k", JVal.jnum 1)])]

/-! ## Helper lemmas -/

theorem splitAux_ne_nil (l acc : List Char) : splitAux l acc ≠ [] := by
  induction l generalizing acc with
  | nil => simp [splitAux]
  | cons c rest ih =>
    simp only [splitAux]
    split
    · simp
    · exact ih _

theorem beginsWith_ex {p s : List Char} (h : beginsWith p s = true) : ∃ r, s = p ++ r := by
  induction p generalizing s with
  | nil => exact ⟨s, rfl⟩
  | cons a ps ih =>
    cases s with
    | nil => simp [beginsWith] at h
    | cons b ss =>
      simp only [beginsWith, Bool.and_eq_true, decide_eq_true_eq] at h
      obtain ⟨r, hr⟩ := ih h.2
      exact ⟨r, by simp [h.1, hr]⟩

theorem splitAux_bearer (t : List Char) :
    splitAux ('B' :: 'e' :: 'a' :: 'r' :: 'e' :: 'r' :: ' ' :: t) [] =
      "Bearer" :: splitAux t [] := rfl

theorem lookup_setField_self (fs : List (String × JVal)) (k : String) (v : JVal) :
    lookupField (setField fs k v) k = some v := by
  induction fs with
  | nil => simp [setField, lookupField]
  | cons p rest ih =>
    obtain ⟨a, b⟩ := p
    by_cases h : a = k
    · simp [setField, lookupField, h]
    · simp [setField, lookupField, h, ih]

theorem lookup_setField_ne (fs : List (String × JVal)) (k q : String) (v : JVal)
    (h : q ≠ k) : lookupField (setField fs k v) q = lookupField fs q := by
  induction fs with
  | nil => simp [setField, lookupField, Ne.symm h]
  | cons p rest ih =>
    obtain ⟨a, b⟩ := p
    simp only [setField]
    by_cases ha : a = k
    · subst ha
      simp [lookupField, Ne.symm h]
    · simp [lookupField, ha, ih]

theorem lookup_eraseField_self (fs : List (String × JVal)) (k : String) :
    lookupField (eraseField fs k) k = none := by
  induction fs with
  | nil => simp [eraseField, lookupField]
  | cons p rest ih =>
    obtain ⟨a, b⟩ := p
    by_cases h : a = k
    · simp [eraseField, h, ih]
    · simp [eraseField, lookupField, h, ih]

/-- The injection/strip step touches only the payload field. -/
theorem injectTableName_getF_other (route body : JVal) (k : String) (hk : k ≠ "payload") :
    (injectTableName route body).getF k = body.getF k := by
  cases body with
  | jobj fs =>
    simp only [injectTableName]
    cases hp : lookupField fs "payload" with
    | none => rfl
    | some p =>
      cases p <;> simp only []
      case jobj pfs =>
        split <;> simp [JVal.getF, lookup_setField_ne _ _ _ _ hk, hp]
  | jnull => rfl
  | jbool b => rfl
  | jnum n => rfl
  | jstr s => rfl
  | jarr xs => rfl

/-! ## Claim theorems -/

/-- C10: when the environment does not define the inbound secret under the
name DA_GATEWAY_TOKEN, every request whose Authorization header passes the
"Bearer " prefix check is rejected with an INVALID_TOKEN nack (HTTP 400):
the split always yields a string token, which never strict-equals the
undefined secret, so no route resolution or dispatch is reached, whatever
the static table, store state or body hold. -/
theorem no_gateway_secret_fails_closed
    (env : String → Option String) (static : String → Option JVal)
    (db : DBState) (parse : String → Option JVal)
    (auth : String) (reqBody : Option JVal)
    (henv : env "DA_GATEWAY_TOKEN" = none)
    (hpre : jsStartsWith auth "Bearer " = true) :
    handleApi env static db parse (some auth) reqBody =
      GatewayResult.nackR (JVal.jstr "unknown") "INVALID_TOKEN" "Token authentication failed" := by
  obtain ⟨r, hr⟩ := beginsWith_ex (p := "Bearer ".toList) (s := auth.toList) hpre
  have hne : ¬ (auth = "" ∨ jsStartsWith auth "Bearer " = false) := by
    rintro (h0 | h0)
    · rw [h0] at hpre
      exact absurd hpre (by decide)
    · rw [hpre] at h0
      exact Bool.noConfusion h0
  have hsplit : jsSplitSpace auth = "Bearer" :: splitAux r [] := by
    unfold jsSplitSpace
    rw [hr]
    exact splitAux_bearer r
  have htok : (jsSplitSpace auth).get? 1 ≠ env C_GATEWAY_TOKEN_NAME := by
    rw [hsplit]
    cases hc : splitAux r [] with
    | nil => exact absurd hc (splitAux_ne_nil r [])
    | cons x xs =>
      show some x ≠ env C_GATEWAY_TOKEN_NAME
      rw [show env C_GATEWAY_TOKEN_NAME = none from henv]
      simp
  simp only [handleApi]
  rw [if_neg hne, if_pos htok]

/-- C10 witness: the theorem applied at an env with no secrets. -/
theorem no_gateway_secret_fails_closed_witness :
    handleApi envNone staticFix dbOff parseNone (some "Bearer whatever") none =
      GatewayResult.nackR (JVal.jstr "unknown") "INVALID_TOKEN" "Token authentication failed" :=
  no_gateway_secret_fails_closed envNone staticFix dbOff parseNone "Bearer whatever" none
    rfl (by decide)

/-- C9: route resolution is deterministic and idempotent: a sequential pair
of resolutions of one key against the same static table contents, store
state and parser yields structurally identical results. The embedding makes
the store read-only during resolution, which is exactly the claim's
no-intervening-mutation hypothesis. -/
theorem resolve_idempotent (static : String → Option JVal)
    (parse : String → Option JVal) (db : DBState) (key : String) :
    (resolveTwice static parse db key).1 = (resolveTwice static parse db key).2 := rfl

/-- C8: findRouteFromDB is a total function that uniformly yields the JS
null value on every failure mode: an unavailable store handle (the result
is null for every query function, i.e. no query is consulted), a
storage-layer error, an empty result set, a null or empty t1 column, and an
unparseable stored value. -/
theorem findRouteFromDB_never_raises :
    (∀ (parse : String → Option JVal) (q : String → QueryResult) (key : String),
        findRouteFromDB parse ⟨false, q⟩ key = JVal.jnull)
    ∧ (∀ (parse : String → Option JVal) (db : DBState) (key : String),
        db.query key = QueryResult.qerror → findRouteFromDB parse db key = JVal.jnull)
    ∧ (∀ (parse : String → Option JVal) (db : DBState) (key : String),
        db.query key = QueryResult.rows [] → findRouteFromDB parse db key = JVal.jnull)
    ∧ (∀ (parse : String → Option JVal) (db : DBState) (key : String)
        (row : Row) (rest : List Row),
        db.query key = QueryResult.rows (row :: rest) →
        (row.t1 = none ∨ row.t1 = some "") → findRouteFromDB parse db key = JVal.jnull)
    ∧ (∀ (parse : String → Option JVal) (db : DBState) (key : String)
        (row : Row) (rest : List Row) (s : String),
        db.query key = QueryResult.rows (row :: rest) → row.t1 = some s →
        parse s = none → findRouteFromDB parse db key = JVal.jnull) := by
  refine ⟨?_, ?_, ?_, ?_, ?_⟩
  · intro parse q key
    rfl
  · intro parse db key h
    by_cases ha : db.available <;> simp [findRouteFromDB, ha, h]
  · intro parse db key h
    by_cases ha : db.available <;> simp [findRouteFromDB, ha, h]
  · intro parse db key row rest h ht
    rcases ht with ht | ht <;>
      by_cases ha : db.available <;> simp [findRouteFromDB, ha, h, ht]
  · intro parse db key row rest s h ht hp
    by_cases hs : s = "" <;>
      by_cases ha : db.available <;> simp [findRouteFromDB, ha, h, ht, hs, hp]

/-- C8 witness: each failure mode at a concrete store and key. -/
theorem findRouteFromDB_never_raises_witness :
    findRouteFromDB parseNone ⟨false, fun _ => QueryResult.rows []⟩ "k" = JVal.jnull
    ∧ findRouteFromDB parseNone ⟨true, fun _ => QueryResult.qerror⟩ "k" = JVal.jnull
    ∧ findRouteFromDB parseNone ⟨true, fun _ => QueryResult.rows []⟩ "k" = JVal.jnull
    ∧ findRouteFromDB parseNone ⟨true, fun _ => QueryResult.rows [⟨none⟩]⟩ "k" = JVal.jnull
    ∧ findRouteFromDB parseNone ⟨true, fun _ => QueryResult.rows [⟨some "notjson"⟩]⟩ "k" = JVal.jnull :=
  ⟨findRouteFromDB_never_raises.1 parseNone _ "k",
   findRouteFromDB_never_raises.2.1 parseNone _ "k" rfl,
   findRouteFromDB_never_raises.2.2.1 parseNone _ "k" rfl,
   findRouteFromDB_never_raises.2.2.2.1 parseNone _ "k" ⟨none⟩ [] rfl (Or.inl rfl),
   findRouteFromDB_never_raises.2.2.2.2 parseNone _ "k" ⟨some "notjson"⟩ [] "notjson" rfl rfl rfl⟩

/-- C4: when the resolved route's type is neither "REST" nor "ABLY",
dispatch returns an immediate jsonError response with HTTP status 501 whose
message interpolates the type field of the request envelope (which the
injection step leaves untouched), not the route's type field. -/
theorem unsupported_type_501
    (env : String → Option String) (route body : JVal)
    (h1 : route.getF "type" ≠ some (JVal.jstr "REST"))
    (h2 : route.getF "type" ≠ some (JVal.jstr "ABLY")) :
    dispatch env route body =
      GatewayResult.errorR
        ("Unsupported service type: " ++ jsToStringU (body.getF "type")) 501 := by
  have hpres : (injectTableName route body).getF "type" = body.getF "type" :=
    injectTableName_getF_other route body "type" (by decide)
  simp only [dispatch]
  rw [hpres]

/-- C4 witness: a route of type "SOAP" and an envelope whose own type field
says "clienttype"; the 501 message reports the envelope's value. -/
theorem unsupported_type_501_witness :
    dispatch envFix (JVal.jobj [("type", JVal.jstr "SOAP")])
      (JVal.jobj [("type", JVal.jstr "clienttype"), ("payload", JVal.jobj [])]) =
      GatewayResult.errorR "Unsupported service type: clienttype" 501 :=
  (unsupported_type_501 envFix (JVal.jobj [("type", JVal.jstr "SOAP")])
    (JVal.jobj [("type", JVal.jstr "clienttype"), ("payload", JVal.jobj [])])
    (by decide) (by decide)).trans (by decide)

/-- C7: REST outbound headers: Content-Type is always application/json; a
truthy route.token is used for the Bearer header even when authKeyEnvName
is also set; when route.token is falsy and authKeyEnvName names a
non-empty env secret, that secret is used; and when the resolved
credential is falsy, no Authorization header is sent at all. -/
theorem rest_credential_resolution
    (route body : JVal) (env : String → Option String) :
    (("Content-Type", "application/json") ∈ (handleRest route body env).headers)
    ∧ (∀ t : JVal, route.getF "token" = some t → t.truthy = true →
        (handleRest route body env).headers =
          [("Content-Type", "application/json"),
           ("Authorization", "Bearer " ++ jsToString t)])
    ∧ (∀ (en : JVal) (s : String),
        optTruthy (route.getF "token") = false →
        route.getF "authKeyEnvName" = some en → en.truthy = true →
        env (jsToString en) = some s → s ≠ "" →
        (handleRest route body env).headers =
          [("Content-Type", "application/json"),
           ("Authorization", "Bearer " ++ s)])
    ∧ (optTruthy (resolveCredential route env) = false →
        ∀ v : String, ("Authorization", v) ∉ (handleRest route body env).headers) := by
  refine ⟨?_, ?_, ?_, ?_⟩
  · by_cases h : optTruthy (resolveCredential route env) <;> simp [handleRest, h]
  · intro t ht htr
    have hc : resolveCredential route env = some t := by
      simp [resolveCredential, ht, optTruthy, htr]
    simp [handleRest, hc, optTruthy, htr, jsToStringU]
  · intro en s ht hen htr henv hs
    have hopt : optTruthy (some en) = true := by
      simp [optTruthy, htr]
    have hc : resolveCredential route env = some (JVal.jstr s) := by
      simp [resolveCredential, ht, hen, hopt, jsToStringU, henv]
    have hopt2 : optTruthy (some (JVal.jstr s)) = true := by
      simp [optTruthy, JVal.truthy, hs]
    simp [handleRest, hc, hopt2, jsToStringU, jsToString]
  · intro h v
    simp [handleRest, h]

/-- C7 witness: the token-wins case (both token and authKeyEnvName set),
the env-fallback case, and the no-credential case. -/
theorem rest_credential_resolution_witness :
    ((handleRest routeRestBoth (JVal.jobj []) envFix).headers =
      [("Content-Type", "application/json"), ("Authorization", "Bearer T1")])
    ∧ ((handleRest (JVal.jobj [("type", JVal.jstr "REST"),
          ("authKeyEnvName", JVal.jstr "REST_API_BEARER_TOKEN")])
          (JVal.jobj []) envRest).headers =
        [("Content-Type", "application/json"), ("Authorization", "Bearer envtok")])
    ∧ (∀ v : String,
        ("Authorization", v) ∉ (handleRest routeRestTN (JVal.jobj []) envNone).headers) :=
  ⟨(rest_credential_resolution routeRestBoth (JVal.jobj []) envFix).2.1
      (JVal.jstr "T1") rfl rfl,
   (rest_credential_resolution (JVal.jobj [("type", JVal.jstr "REST"),
        ("authKeyEnvName", JVal.jstr "REST_API_BEARER_TOKEN")])
      (JVal.jobj []) envRest).2.2.1
      (JVal.jstr "REST_API_BEARER_TOKEN") "envtok" (by decide) rfl rfl rfl (by decide),
   (rest_credential_resolution routeRestTN (JVal.jobj []) envNone).2.2.2 (by decide)⟩

/-- C5: a truthy static-table hit is returned as-is, with a result
independent of the store state (a statically mapped key resolves even on an
unavailable store); the store is consulted exactly when the static table
has no entry; the template key v99/demorest resolves statically against
every store; and when the static table misses and the store yields the JS
null (covering both a missing record and a malformed stored value), the
request is answered with the same NO_ROUTE nack, so the two failure causes
are indistinguishable to the caller. -/
theorem route_resolution_static_first :
    (∀ (static : String → Option JVal) (parse : String → Option JVal)
        (db db2 : DBState) (key : String), optTruthy (static key) = true →
        resolveRoute static parse db key = static key
        ∧ resolveRoute static parse db key = resolveRoute static parse db2 key)
    ∧ (∀ (static : String → Option JVal) (parse : String → Option JVal)
        (db : DBState) (key : String), static key = none →
        resolveRoute static parse db key = some (findRouteFromDB parse db key))
    ∧ (∀ (parse : String → Option JVal) (db : DBState),
        resolveRoute DA_SERVICE_MAP parse db "v99/demorest" =
          DA_SERVICE_MAP "v99/demorest")
    ∧ (∀ (env : String → Option String) (static : String → Option JVal)
        (parse : String → Option JVal) (db : DBState) (body : JVal),
        body ≠ JVal.jnull →
        optTruthy (body.getF "service") = true →
        optTruthy (body.getF "payload") = true →
        static (jsKey body) = none →
        findRouteFromDB parse db (jsKey body) = JVal.jnull →
        handleApiBody env static db parse body =
          GatewayResult.nackR (jsRequestId body) "NO_ROUTE"
            ("No route found for " ++ jsKey body)) := by
  refine ⟨?_, ?_, ?_, ?_⟩
  · intro static parse db db2 key h
    exact ⟨by simp [resolveRoute, h], by simp [resolveRoute, h]⟩
  · intro static parse db key h
    simp [resolveRoute, h, optTruthy]
  · intro parse db
    have h : optTruthy (DA_SERVICE_MAP "v99/demorest") = true := by decide
    simp [resolveRoute, h]
  · intro env static parse db body hb hs hp hstat hdb
    have hroute : resolveRoute static parse db (jsKey body) = some JVal.jnull := by
      simp [resolveRoute, hstat, optTruthy, hdb]
    have hr2 : optTruthy (resolveRoute static parse db (jsKey body)) = false := by
      rw [hroute]
      rfl
    simp [handleApiBody, hb, hs, hp, hr2]

/-- C5 witness: the template key resolves on an unavailable store, and a
store miss and a malformed stored value produce the identical NO_ROUTE
nack. -/
theorem route_resolution_static_first_witness :
    (resolveRoute DA_SERVICE_MAP parseNone dbOff "v99/demorest" =
      DA_SERVICE_MAP "v99/demorest")
    ∧ (handleApiBody envFix staticFix dbEmpty parseNone noRouteBody =
        GatewayResult.nackR (JVal.jstr "unknown") "NO_ROUTE" "No route found for v1/nothere")
    ∧ (handleApiBody envFix staticFix dbMal parseNone noRouteBody =
        GatewayResult.nackR (JVal.jstr "unknown") "NO_ROUTE" "No route found for v1/nothere") :=
  ⟨route_resolution_static_first.2.2.1 parseNone dbOff,
   (route_resolution_static_first.2.2.2 envFix staticFix parseNone dbEmpty noRouteBody
      (by decide) (by decide) (by decide) (by decide) (by decide)).trans (by decide),
   (route_resolution_static_first.2.2.2 envFix staticFix parseNone dbMal noRouteBody
      (by decide) (by decide) (by decide) (by decide) (by decide)).trans (by decide)⟩

/-- The dispatcher never answers with a nack envelope. -/
theorem dispatch_ne_nack (env : String → Option String) (route body : JVal)
    (rid : JVal) (c m : String) :
    dispatch env route body ≠ GatewayResult.nackR rid c m := by
  simp only [dispatch]
  split <;> simp

/-- C1 counterexample: a dispatched ABLY request whose payload.action is
"ping" and whose envelope has no top-level action field publishes the body
[[name: "gateway-event", data: whole envelope]], not the claimed
[[name: "ping", data: payload]]. -/
theorem ably_publish_body_cex :
    handleApi envFix staticFix dbOff parseNone (some "Bearer s3cret") (some c1body) =
      GatewayResult.ablyDispatch
        ⟨some (JVal.jstr "ch"),
         [("Authorization", "Basic dW5kZWZpbmVk"), ("Content-Type", "application/json")],
         JVal.jarr [JVal.jobj [("name", JVal.jstr "gateway-event"), ("data", c1body)]]⟩
    ∧ JVal.jarr [JVal.jobj [("name", JVal.jstr "gateway-event"), ("data", c1body)]] ≠
        JVal.jarr [JVal.jobj [("name", JVal.jstr "ping"),
          ("data", JVal.jobj [("action", JVal.jstr "ping")])]] :=
  ⟨by decide, by decide⟩

/-- C1 amended: for every dispatched ABLY route the published body is the
single-element array [[name: e, data: b]] where b is the whole forwarded
request envelope (after the table_name step), not envelope.payload, and e
is the top-level action field of that envelope when truthy, else the
literal "gateway-event". -/
theorem ably_publish_body_amended
    (env : String → Option String) (route body : JVal) (call : AblyCall)
    (h : dispatch env route body = GatewayResult.ablyDispatch call) :
    call.body = JVal.jarr [JVal.jobj
      [("name", jsOr ((injectTableName route body).getF "action") (JVal.jstr "gateway-event")),
       ("data", injectTableName route body)]] := by
  simp only [dispatch] at h
  split at h
  · simp at h
  · cases h
    rfl
  · simp at h

/-- C1 amended witness: the theorem applied at the concrete ABLY fixture. -/
theorem ably_publish_body_amended_witness :
    (⟨some (JVal.jstr "ch"),
      [("Authorization", "Basic dW5kZWZpbmVk"), ("Content-Type", "application/json")],
      JVal.jarr [JVal.jobj [("name", JVal.jstr "gateway-event"), ("data", c1body)]]⟩ : AblyCall).body =
      JVal.jarr [JVal.jobj
        [("name", jsOr ((injectTableName routeAblyFix c1body).getF "action")
            (JVal.jstr "gateway-event")),
         ("data", injectTableName routeAblyFix c1body)]] :=
  ably_publish_body_amended envNone routeAblyFix c1body
    ⟨some (JVal.jstr "ch"),
     [("Authorization", "Basic dW5kZWZpbmVk"), ("Content-Type", "application/json")],
     JVal.jarr [JVal.jobj [("name", JVal.jstr "gateway-event"), ("data", c1body)]]⟩
    (by decide)

/-- C2 counterexample: an authenticated request whose body has a non-empty
service and a PRESENT payload equal to the JSON number 0 is nacked
INVALID_FIELD, although the claim admits only an absent payload there. -/
theorem payload_presence_cex :
    handleApi envFix DA_SERVICE_MAP dbOff parseNone (some "Bearer s3cret") (some c2body) =
      GatewayResult.nackR (JVal.jstr "unknown") "INVALID_FIELD" "Missing required field: payload"
    ∧ c2body.getF "payload" = some (JVal.jnum 0) :=
  ⟨by decide, by decide⟩

/-- C2 amended: given a non-empty service, validation nacks INVALID_FIELD
for the payload exactly when the payload field is falsy: absent, null,
false, 0 or the empty string. Every truthy JSON value passes, in particular
the empty object and every array. -/
theorem payload_presence_amended
    (env : String → Option String) (static : String → Option JVal)
    (db : DBState) (parse : String → Option JVal) (body : JVal)
    (hb : body ≠ JVal.jnull) (hs : optTruthy (body.getF "service") = true) :
    (handleApiBody env static db parse body =
      GatewayResult.nackR (jsRequestId body) "INVALID_FIELD" "Missing required field: payload")
    ↔ optTruthy (body.getF "payload") = false := by
  cases hx : optTruthy (body.getF "payload") with
  | false =>
    constructor
    · intro _
      rfl
    · intro _
      simp [handleApiBody, hb, hs, hx]
  | true =>
    constructor
    · intro h
      exfalso
      have hrw : handleApiBody env static db parse body =
          (if optTruthy (resolveRoute static parse db (jsKey body)) = false then
            GatewayResult.nackR (jsRequestId body) "NO_ROUTE"
              ("No route found for " ++ jsKey body)
          else
            dispatch env ((resolveRoute static parse db (jsKey body)).getD JVal.jnull) body) := by
        simp [handleApiBody, hb, hs, hx]
      rw [hrw] at h
      by_cases hr : optTruthy (resolveRoute static parse db (jsKey body)) = false
      · rw [if_pos hr] at h
        simp at h
      · rw [if_neg hr] at h
        exact dispatch_ne_nack _ _ _ _ _ _ h
    · intro h
      exact absurd h (by decide)

/-- C2 amended witness: the falsy payload 0 is nacked. -/
theorem payload_presence_amended_witness :
    handleApiBody envFix DA_SERVICE_MAP dbOff parseNone c2body =
      GatewayResult.nackR (jsRequestId c2body) "INVALID_FIELD" "Missing required field: payload" :=
  (payload_presence_amended envFix DA_SERVICE_MAP dbOff parseNone c2body
    (by decide) (by decide)).mpr (by decide)

/-- C3 counterexample: an ABLY route with neither token nor authKeyEnvName
resolves no credential, yet the publish request still carries an
Authorization header, Basic of the base64 of "undefined". -/
theorem ably_auth_header_cex :
    (handleAbly routeAblyFix (JVal.jobj []) envNone).headers =
      [("Authorization", "Basic dW5kZWZpbmVk"), ("Content-Type", "application/json")]
    ∧ resolveCredential routeAblyFix envNone = none :=
  ⟨by decide, by decide⟩

/-- C3 amended: the ABLY handler resolves its outbound credential through
the same resolveCredential step as the REST handler, and always sends an
Authorization header valued Basic of the base64 of the JS string coercion
of that credential: the credential alone (no separating colon) when one is
resolved, and the coercion "undefined" when none is. -/
theorem ably_auth_header_amended (route body : JVal) (env : String → Option String) :
    ((handleAbly route body env).headers =
      [("Authorization", "Basic " ++ btoa (jsToStringU (resolveCredential route env))),
       ("Content-Type", "application/json")])
    ∧ (resolveCredential route env = none →
        (handleAbly route body env).headers =
          [("Authorization", "Basic " ++ btoa "undefined"),
           ("Content-Type", "application/json")]) := by
  constructor
  · rfl
  · intro h
    simp [handleAbly, h, jsToStringU]

/-- C3 amended witness: the no-credential fixture still gets the header. -/
theorem ably_auth_header_amended_witness :
    (handleAbly routeAblyFix (JVal.jobj []) envNone).headers =
      [("Authorization", "Basic " ++ btoa "undefined"),
       ("Content-Type", "application/json")] :=
  (ably_auth_header_amended routeAblyFix (JVal.jobj []) envNone).2 (by decide)

/-- C6 counterexample: a route with table_name "orders" dispatched with a
truthy array payload: the property write succeeds in JS (an array is
object-like), yet the forwarded JSON payload carries no table_name key,
against the claim that every dispatched request then carries it. -/
theorem table_name_injection_cex :
    dispatch envNone routeRestTN c6body =
      GatewayResult.restDispatch
        ⟨some (JVal.jstr "https://backend.example"),
         [("Content-Type", "application/json")], c6body⟩
    ∧ optTruthy (routeRestTN.getF "table_name") = true
    ∧ c6body.getF "payload" = some (JVal.jarr [])
    ∧ (JVal.jarr []).hasKey "table_name" = false :=
  ⟨by decide, by decide, by decide, by decide⟩

/-- The injection step on an object body with an object payload and a
truthy route table_name: the value is assigned into the payload. -/
theorem injectTableName_obj_set (route : JVal) (fs pfs : List (String × JVal))
    (hpl : lookupField fs "payload" = some (JVal.jobj pfs))
    (htn : optTruthy (route.getF "table_name") = true) :
    injectTableName route (JVal.jobj fs) =
      JVal.jobj (setField fs "payload"
        (JVal.jobj (setField pfs "table_name" ((route.getF "table_name").getD JVal.jnull)))) := by
  simp only [injectTableName, hpl]
  simp [htn]

/-- The injection step on an object body with an object payload and a
falsy route table_name: any client table_name is stripped. -/
theorem injectTableName_obj_strip (route : JVal) (fs pfs : List (String × JVal))
    (hpl : lookupField fs "payload" = some (JVal.jobj pfs))
    (htn : optTruthy (route.getF "table_name") = false) :
    injectTableName route (JVal.jobj fs) =
      JVal.jobj (setField fs "payload" (JVal.jobj (eraseField pfs "table_name"))) := by
  simp only [injectTableName, hpl]
  simp [htn]

/-- The injection step on an object body with a non-object payload leaves
the body unchanged. -/
theorem injectTableName_obj_skip (route : JVal) (fs : List (String × JVal)) (pv : JVal)
    (hpl : lookupField fs "payload" = some pv) (hnobj : ∀ pfs, pv ≠ JVal.jobj pfs) :
    injectTableName route (JVal.jobj fs) = JVal.jobj fs := by
  simp only [injectTableName, hpl]
  cases pv with
  | jobj pfs => exact absurd rfl (hnobj pfs)
  | jnull => rfl
  | jbool b => rfl
  | jnum n => rfl
  | jstr s => rfl
  | jarr xs => rfl

/-- The injection step on an object body without a payload field leaves the
body unchanged. -/
theorem injectTableName_obj_none (route : JVal) (fs : List (String × JVal))
    (hpl : lookupField fs "payload" = none) :
    injectTableName route (JVal.jobj fs) = JVal.jobj fs := by
  simp only [injectTableName, hpl]

/-- C6 amended: when the payload is a JSON object, a truthy route
table_name is written into the forwarded payload (overwriting any client
value) and a falsy one strips any client-supplied table_name; with a falsy
route table_name the forwarded payload never holds a table_name key for
any payload shape; a non-object payload passes through unchanged (for a
primitive the write throws and is skipped, for an array the written
property is dropped by JSON serialization); and both protocol handlers
forward exactly the post-injection envelope. -/
theorem table_name_injection_amended (route body : JVal) (env : String → Option String) :
    (∀ fs pfs, body = JVal.jobj fs → lookupField fs "payload" = some (JVal.jobj pfs) →
      optTruthy (route.getF "table_name") = true →
      ((injectTableName route body).getF "payload").bind (fun p => p.getF "table_name") =
        route.getF "table_name")
    ∧ (optTruthy (route.getF "table_name") = false →
        ∀ p, (injectTableName route body).getF "payload" = some p →
          p.hasKey "table_name" = false)
    ∧ (∀ p, body.getF "payload" = some p → (∀ pfs, p ≠ JVal.jobj pfs) →
        injectTableName route body = body)
    ∧ (∀ call, dispatch env route body = GatewayResult.restDispatch call →
        call.body = injectTableName route body)
    ∧ (∀ call, dispatch env route body = GatewayResult.ablyDispatch call →
        ∃ nm, call.body =
          JVal.jarr [JVal.jobj [("name", nm), ("data", injectTableName route body)]]) := by
  refine ⟨?_, ?_, ?_, ?_, ?_⟩
  · intro fs pfs hbfs hpl htn
    subst hbfs
    obtain ⟨v, hv⟩ : ∃ v, route.getF "table_name" = some v := by
      cases hx : route.getF "table_name" with
      | none =>
        rw [hx] at htn
        exact absurd htn (by decide)
      | some v => exact ⟨v, rfl⟩
    rw [injectTableName_obj_set route fs pfs hpl htn, hv]
    simp [JVal.getF, lookup_setField_self]
  · intro htn p hp
    cases body with
    | jobj fs =>
      cases hpl : lookupField fs "payload" with
      | none =>
        rw [injectTableName_obj_none route fs hpl] at hp
        simp only [JVal.getF] at hp
        rw [hpl] at hp
        exact Option.noConfusion hp
      | some pv =>
        cases pv with
        | jobj pfs =>
          rw [injectTableName_obj_strip route fs pfs hpl htn] at hp
          simp only [JVal.getF, lookup_setField_self, Option.some.injEq] at hp
          subst hp
          simp [JVal.hasKey, JVal.getF, lookup_eraseField_self]
        | jnull =>
          rw [injectTableName_obj_skip route fs JVal.jnull hpl (fun _ hh => JVal.noConfusion hh)] at hp
          simp only [JVal.getF] at hp
          rw [hpl] at hp
          cases hp
          simp [JVal.hasKey, JVal.getF]
        | jbool b =>
          rw [injectTableName_obj_skip route fs (JVal.jbool b) hpl (fun _ hh => JVal.noConfusion hh)] at hp
          simp only [JVal.getF] at hp
          rw [hpl] at hp
          cases hp
          simp [JVal.hasKey, JVal.getF]
        | jnum n =>
          rw [injectTableName_obj_skip route fs (JVal.jnum n) hpl (fun _ hh => JVal.noConfusion hh)] at hp
          simp only [JVal.getF] at hp
          rw [hpl] at hp
          cases hp
          simp [JVal.hasKey, JVal.getF]
        | jstr s =>
          rw [injectTableName_obj_skip route fs (JVal.jstr s) hpl (fun _ hh => JVal.noConfusion hh)] at hp
          simp only [JVal.getF] at hp
          rw [hpl] at hp
          cases hp
          simp [JVal.hasKey, JVal.getF]
        | jarr xs =>
          rw [injectTableName_obj_skip route fs (JVal.jarr xs) hpl (fun _ hh => JVal.noConfusion hh)] at hp
          simp only [JVal.getF] at hp
          rw [hpl] at hp
          cases hp
          simp [JVal.hasKey, JVal.getF]
    | jnull => simp [injectTableName, JVal.getF] at hp
    | jbool b => simp [injectTableName, JVal.getF] at hp
    | jnum n => simp [injectTableName, JVal.getF] at hp
    | jstr s => simp [injectTableName, JVal.getF] at hp
    | jarr xs => simp [injectTableName, JVal.getF] at hp
  · intro p hp hnp
    cases body with
    | jobj fs =>
      simp only [JVal.getF] at hp
      exact injectTableName_obj_skip route fs p hp hnp
    | jnull => rfl
    | jbool b => rfl
    | jnum n => rfl
    | jstr s => rfl
    | jarr xs => rfl
  · intro call h
    simp only [dispatch] at h
    split at h
    · cases h
      rfl
    · simp at h
    · simp at h
  · intro call h
    simp only [dispatch] at h
    split at h
    · simp at h
    · cases h
      exact ⟨_, rfl⟩
    · simp at h

/-- C6 amended witness: overwrite of a spoofed table_name under a route
with one, and absence of the key after the strip under a route without. -/
theorem table_name_injection_amended_witness :
    (((injectTableName routeRestTN c6obj).getF "payload").bind
        (fun p => p.getF "table_name") = routeRestTN.getF "table_name")
    ∧ (JVal.jobj [("k", JVal.jnum 1)]).hasKey "table_name" = false :=
  ⟨(table_name_injection_amended routeRestTN c6obj envNone).1
      [("service", JVal.jstr "x"),
       ("payload", JVal.jobj [("table_name", JVal.jstr "spoof"), ("k", JVal.jnum 1)])]
      [("table_name", JVal.jstr "spoof"), ("k", JVal.jnum 1)]
      (by decide) (by decide) (by decide),
   (table_name_injection_amended routeAblyFix c6obj envNone).2.1
      (by decide) (JVal.jobj [("k", JVal.jnum 1)]) (by decide)⟩

end DaGateway
